import Mathlib

/-!
Verification development for the instastreamer_go HTTP relay (main.go).

The Go program is shallowly embedded: pure helper functions become Lean
functions; the DynamoDB store, the URL parser of the standard library and
the yt-dlp subprocess are external collaborators, modelled as oracle
parameters; HTTP responses become explicit result values.
-/

namespace InstaStream

/-! ## Strings as code points

Go regexp matching and strings.ToUpper operate rune-wise; we work on the
list of Unicode code points of a string. strings.ToUpper maps every rune
through the Unicode uppercase mapping: on the ASCII range it sends
97..122 (the letters a..z) down by 32 to A..Z and fixes every other code
point, and outside ASCII it consults the simple-uppercase tables of the
unicode package. Those tables are an external collaborator and enter as
an oracle argument; concrete evaluations instantiate the oracle at the
points actually consulted with the published Unicode values (for example
U+0131, dotless i, uppercases to U+0049, the letter I). -/

/-- The code points of a string, in order. -/
def codePoints (s : String) : List Nat :=
  s.data.map Char.toNat

/-- The Unicode simple-uppercase mapping for code points at and above
128, as tabulated by Go's unicode package: an external oracle. -/
def CaseTable := Nat → Nat

/-- Rune-wise embedding of strings.ToUpper on one code point: ASCII
lowercase letters 97..122 are mapped down by 32, every other ASCII code
point is fixed, and non-ASCII code points go through the Unicode
table. -/
def runeToUpper (tbl : CaseTable) (n : Nat) : Nat :=
  if 97 ≤ n ∧ n ≤ 122 then n - 32
  else if n < 128 then n
  else tbl n

/-- runeToUpper on one character. -/
def charToUpper (tbl : CaseTable) (c : Char) : Char :=
  Char.ofNat (runeToUpper tbl c.toNat)

/-- Embedding of strings.ToUpper. -/
def strToUpper (tbl : CaseTable) (s : String) : String :=
  String.mk (s.data.map (charToUpper tbl))

/-- Code point in the regexp class [A-Z0-9]: 65..90 are A..Z,
48..57 are 0..9. -/
def isUpperAlnumCP (n : Nat) : Bool :=
  (decide (65 ≤ n) && decide (n ≤ 90)) || (decide (48 ≤ n) && decide (n ≤ 57))

/-- Anchored match of the regexp [A-Z0-9]\x7b3\x7d-[A-Z0-9]\x7b3\x7d on a
code-point list: exactly seven runes, the fourth being the hyphen (45). -/
def matchCodePattern : List Nat → Bool
  | [a, b, c, d, e, f, g] =>
      isUpperAlnumCP a && isUpperAlnumCP b && isUpperAlnumCP c &&
      (d == 45) &&
      isUpperAlnumCP e && isUpperAlnumCP f && isUpperAlnumCP g
  | _ => false

/-- Embedding of isValidCodeFormat (main.go): uppercase the string, then
match it against the anchored pattern XXX-XXX of uppercase alphanumerics. -/
def isValidCodeFormat (tbl : CaseTable) (code : String) : Bool :=
  matchCodePattern ((codePoints code).map (runeToUpper tbl))

/-- Code point in the spec class [A-Za-z0-9] (spec-side definition, for
the refinement claim about the validator: 65..90 upper, 97..122 lower,
48..57 digits). -/
def isSpecAlnumCP (n : Nat) : Bool :=
  (decide (65 ≤ n) && decide (n ≤ 90)) ||
  (decide (97 ≤ n) && decide (n ≤ 122)) ||
  (decide (48 ≤ n) && decide (n ≤ 57))

/-- Spec-side pattern [A-Za-z0-9]\x7b3\x7d-[A-Za-z0-9]\x7b3\x7d on a
code-point list. -/
def matchSpecPattern : List Nat → Bool
  | [a, b, c, d, e, f, g] =>
      isSpecAlnumCP a && isSpecAlnumCP b && isSpecAlnumCP c &&
      (d == 45) &&
      isSpecAlnumCP e && isSpecAlnumCP f && isSpecAlnumCP g
  | _ => false

/-- Spec-side format acceptance: the raw string matches the
case-insensitive pattern directly, with no normalization step. -/
def specCodeFormat (code : String) : Bool :=
  matchSpecPattern (codePoints code)

/-- The fragment of the Unicode simple-uppercase table that the ı-based
example strings consult: U+0131 (305, dotless i) uppercases to U+0049
(73, the letter I) per UnicodeData; every other point is left fixed,
which agrees with the full table at every point those strings reach,
since their only non-ASCII rune is U+0131. -/
def caseTableAt131 : CaseTable := fun n => if n == 305 then 73 else n

/-! ## The DynamoDB store boundary -/

/-- A store record, as validateCode reads it: the name attribute is
present as a string, or absent (covers both a missing attribute and one
of a non-string type, which the Go type assertion also treats as absent). -/
structure Item where
  name : Option String
deriving DecidableEq

/-- Outcome of one GetItem call: a transport error, or a result whose
item is nil (not found) or a record. -/
inductive GetItemResult where
  | ok (item : Option Item)
  | err
deriving DecidableEq

/-- The remote store as a boundary oracle: key to GetItem outcome. -/
def Store := String → GetItemResult

/-! ## validateCode and the withAuth middleware -/

/-- Embedding of validateCode (main.go). The global dynamoClient is the
Option Store argument: none models a nil client. The result mirrors the
Go triple (valid, name, err), with the error as a Bool flag. -/
def validateCode (tbl : CaseTable) (client : Option Store) (code : String) :
    Bool × String × Bool :=
  match client with
  | none => (true, "Local User", false)
  | some store =>
    let code := strToUpper tbl code
    match store code with
    | .err => (false, "", true)
    | .ok none => (false, "", false)
    | .ok (some item) => (true, item.name.getD "", false)

/-- Outcome of the withAuth middleware: pass the request to the inner
handler, or reject it with an HTTP status and plain-text message. -/
inductive GateOutcome where
  | pass
  | reject (status : Nat) (msg : String)
deriving DecidableEq

/-- Embedding of withAuth (main.go). header is the X-Auth-Code header
value and query the auth query parameter, each the empty string when
absent, exactly as Go's Get reports them. -/
def withAuth (tbl : CaseTable) (client : Option Store) (header query : String) :
    GateOutcome :=
  match client with
  | none => .pass
  | some _ =>
    let authCode := if header == "" then query else header
    if authCode == "" then .reject 401 "Unauthorized: missing auth code"
    else if !(isValidCodeFormat tbl authCode) then
      .reject 401 "Unauthorized: invalid auth code format"
    else
      match validateCode tbl client authCode with
      | (_, _, true) => .reject 500 "Internal server error"
      | (false, _, false) => .reject 401 "Unauthorized: invalid auth code"
      | (true, _, false) => .pass

/-! ## The /api/auth handler -/

/-- Decoded body of a POST /api/auth request. -/
structure AuthRequest where
  code : String
deriving DecidableEq

/-- The JSON envelope written by handleAuth; name and error are
empty strings when omitted (Go omitempty). -/
structure AuthResponse where
  valid : Bool
  name : String := ""
  error : String := ""
deriving DecidableEq

/-- What handleAuth sends back: a plain-text error with a non-200 status,
or a JSON envelope with status 200. -/
inductive AuthHandlerResult where
  | plainError (status : Nat) (msg : String)
  | jsonOK (resp : AuthResponse)
deriving DecidableEq

/-- Embedding of handleAuth (main.go). The body argument is the outcome
of decoding the request body: none models a decode failure. -/
def handleAuth (tbl : CaseTable) (client : Option Store) (method : String)
    (body : Option AuthRequest) : AuthHandlerResult :=
  if method != "POST" then .plainError 405 "Method not allowed"
  else
    match body with
    | none => .jsonOK { valid := false, error := "Invalid request body" }
    | some req =>
      if req.code == "" then
        .jsonOK { valid := false, error := "Code is required" }
      else if !(isValidCodeFormat tbl req.code) then
        .jsonOK { valid := false, error := "Invalid code format. Expected: XXX-XXX" }
      else
        match validateCode tbl client req.code with
        | (_, _, true) => .jsonOK { valid := false, error := "Failed to validate code" }
        | (false, _, false) => .jsonOK { valid := false, error := "Invalid code" }
        | (true, name, false) => .jsonOK { valid := true, name := name }

/-! ## The /api/info handler -/

/-- Decoded body of a POST /api/info or /api/stream JSON request. -/
structure StreamRequest where
  url : String
deriving DecidableEq

/-- The parts of a parsed URL that handleVideoInfo inspects. The parser
itself (net/url) is an external collaborator; its outcome is an oracle
argument, none modelling a parse error. -/
structure GoURL where
  scheme : String
  host : String
deriving DecidableEq

/-- Substring test on character lists, embedding strings.Contains. -/
def listContainsAux (sub : List Char) : List Char → Bool
  | [] => sub.isPrefixOf []
  | a :: t => sub.isPrefixOf (a :: t) || listContainsAux sub t

/-- Embedding of strings.Contains s sub. -/
def strContains (s sub : String) : Bool :=
  listContainsAux sub.data s.data

/-- A JSON value as handleVideoInfo discriminates it: a string, or
anything else (the Go type assertion to string fails on the latter). -/
inductive JsonVal where
  | str (s : String)
  | other
deriving DecidableEq

/-- Outcome of running yt-dlp in describe mode and unmarshalling its
stdout: the run failed (non-zero exit), the output was not valid JSON,
or a JSON object given as an association list. -/
inductive InfoToolOutcome where
  | execFail
  | badJSON
  | json (obj : List (String × JsonVal))

/-- The descriptor returned by /api/info. -/
structure VideoInfo where
  url : String
  title : String
  ext : String
deriving DecidableEq

/-- What handleVideoInfo sends back: a plain-text error with its status,
or the 200 JSON descriptor. -/
inductive InfoResult where
  | plainError (status : Nat) (msg : String)
  | jsonOK (info : VideoInfo)
deriving DecidableEq

/-- Defensive extraction of a string field from the unmarshalled object:
the default is kept unless the key maps to a string value
(the pattern main.go repeats for url, title and ext). -/
def extractStringField (obj : List (String × JsonVal)) (key dflt : String) :
    String :=
  match obj.lookup key with
  | some (JsonVal.str s) => s
  | _ => dflt

/-- Embedding of handleVideoInfo (main.go). parse is the net/url parser
oracle and tool the yt-dlp describe-mode oracle. The Bool in the result
records whether the subprocess was invoked. -/
def handleVideoInfo (parse : String → Option GoURL)
    (tool : String → InfoToolOutcome) (method : String)
    (body : Option StreamRequest) : InfoResult × Bool :=
  if method != "POST" then (.plainError 405 "Method not allowed", false)
  else
    match body with
    | none => (.plainError 400 "Invalid request body", false)
    | some req =>
      if req.url == "" then (.plainError 400 "URL is required", false)
      else
        match parse req.url with
        | none => (.plainError 400 "Invalid URL format", false)
        | some u =>
          if u.scheme == "" || u.host == "" then
            (.plainError 400 "Invalid URL format", false)
          else if u.scheme != "http" && u.scheme != "https" then
            (.plainError 400 "URL must use http or https scheme", false)
          else if !(strContains u.host "instagram.com") then
            (.plainError 400 "URL must be an Instagram URL", false)
          else
            match tool req.url with
            | .execFail => (.plainError 500 "Failed to get video info", true)
            | .badJSON => (.plainError 500 "Failed to parse video info", true)
            | .json obj =>
              (.jsonOK ⟨extractStringField obj "url" "",
                        extractStringField obj "title" "video",
                        extractStringField obj "ext" "mp4"⟩, true)

/-! ## The /api/stream handler -/

/-- The client-visible outcome of handleStream: a plain-text error sent
before streaming, or a committed stream (video/mp4 headers, chunked,
no-cache) that forwarded the given number of bytes. -/
inductive StreamResult where
  | plainError (status : Nat) (msg : String)
  | streamed (written : Nat)
deriving DecidableEq

/-- Boundary outcomes of one streaming request, in program order: the two
pipe creations, the subprocess start, the io.Copy outcome (bytes written
and whether it ended in an error such as a client disconnect), and the
Wait outcome (its error is only logged). -/
structure StreamOracles where
  stdoutPipeFail : Bool
  stderrPipeFail : Bool
  startFail : Bool
  copy : Nat × Bool
  waitFail : Bool
deriving DecidableEq

/-- What one run of handleStream did: the response, whether the
subprocess was started, and whether cmd.Wait was reached. -/
structure StreamOutcome where
  result : StreamResult
  started : Bool
  waited : Bool
deriving DecidableEq

/-- Embedding of handleStream (main.go): only the presence of the url
query parameter is checked; then pipes are created, the subprocess is
started and its stdout is copied to the response; a copy error returns
from the handler at once, reaching cmd.Wait only on a clean copy. -/
def handleStream (queryURL : String) (o : StreamOracles) : StreamOutcome :=
  if queryURL == "" then
    ⟨.plainError 400 "URL parameter is required", false, false⟩
  else if o.stdoutPipeFail then
    ⟨.plainError 500 "Failed to start download", false, false⟩
  else if o.stderrPipeFail then
    ⟨.plainError 500 "Failed to start download", false, false⟩
  else if o.startFail then
    ⟨.plainError 500 "Failed to start download", false, false⟩
  else
    let (written, copyErr) := o.copy
    if copyErr then ⟨.streamed written, true, false⟩
    else ⟨.streamed written, true, true⟩

end InstaStream

namespace InstaStream

/-- Below 128 the uppercase mapping sends the class [A-Za-z0-9] exactly
onto [A-Z0-9], whatever the Unicode table holds. -/
theorem isUpperAlnumCP_runeToUpper (tbl : CaseTable) (n : Nat) (h : n < 128) :
    isUpperAlnumCP (runeToUpper tbl n) = isSpecAlnumCP n := by
  unfold runeToUpper isUpperAlnumCP isSpecAlnumCP
  rw [Bool.eq_iff_iff]
  simp only [Bool.or_eq_true, Bool.and_eq_true, decide_eq_true_eq]
  split <;> omega

/-- Below 128 uppercasing neither creates nor destroys a hyphen (45). -/
theorem runeToUpper_beq_hyphen (tbl : CaseTable) (n : Nat) (h : n < 128) :
    (runeToUpper tbl n == 45) = (n == 45) := by
  unfold runeToUpper
  rw [Bool.eq_iff_iff]
  simp only [beq_iff_eq]
  split <;> omega

/-- Code points of the class [A-Za-z0-9] are ASCII. -/
theorem isSpecAlnumCP_lt (n : Nat) (h : isSpecAlnumCP n = true) : n < 128 := by
  unfold isSpecAlnumCP at h
  simp only [Bool.or_eq_true, Bool.and_eq_true, decide_eq_true_eq] at h
  omega

/-- A code-point list matching the mixed-case pattern is all ASCII. -/
theorem matchSpecPattern_lt (l : List Nat) (h : matchSpecPattern l = true) :
    ∀ c ∈ l, c < 128 := by
  rcases l with _ | ⟨a, _ | ⟨b, _ | ⟨c, _ | ⟨d, _ | ⟨e, _ | ⟨f, _ | ⟨g, _ | t⟩⟩⟩⟩⟩⟩⟩
  case nil => exact Bool.noConfusion h
  case cons.nil => exact Bool.noConfusion h
  case cons.cons.nil => exact Bool.noConfusion h
  case cons.cons.cons.nil => exact Bool.noConfusion h
  case cons.cons.cons.cons.nil => exact Bool.noConfusion h
  case cons.cons.cons.cons.cons.nil => exact Bool.noConfusion h
  case cons.cons.cons.cons.cons.cons.nil => exact Bool.noConfusion h
  case cons.cons.cons.cons.cons.cons.cons.cons => exact Bool.noConfusion h
  case cons.cons.cons.cons.cons.cons.cons.nil =>
    simp only [matchSpecPattern, Bool.and_eq_true, beq_iff_eq] at h
    obtain ⟨⟨⟨⟨⟨⟨h1, h2⟩, h3⟩, h4⟩, h5⟩, h6⟩, h7⟩ := h
    intro x hx
    simp only [List.mem_cons, List.not_mem_nil, or_false] at hx
    rcases hx with rfl | rfl | rfl | rfl | rfl | rfl | rfl
    · exact isSpecAlnumCP_lt x h1
    · exact isSpecAlnumCP_lt x h2
    · exact isSpecAlnumCP_lt x h3
    · omega
    · exact isSpecAlnumCP_lt x h5
    · exact isSpecAlnumCP_lt x h6
    · exact isSpecAlnumCP_lt x h7

/-- On all-ASCII code-point lists, the uppercase pattern after the
uppercase map coincides with the mixed-case pattern. -/
theorem matchCodePattern_map_runeToUpper (tbl : CaseTable) (l : List Nat)
    (h : ∀ c ∈ l, c < 128) :
    matchCodePattern (l.map (runeToUpper tbl)) = matchSpecPattern l := by
  rcases l with _ | ⟨a, _ | ⟨b, _ | ⟨c, _ | ⟨d, _ | ⟨e, _ | ⟨f, _ | ⟨g, _ | t⟩⟩⟩⟩⟩⟩⟩
  case nil => rfl
  case cons.nil => rfl
  case cons.cons.nil => rfl
  case cons.cons.cons.nil => rfl
  case cons.cons.cons.cons.nil => rfl
  case cons.cons.cons.cons.cons.nil => rfl
  case cons.cons.cons.cons.cons.cons.nil => rfl
  case cons.cons.cons.cons.cons.cons.cons.nil =>
    simp only [List.map_cons, List.map_nil, matchCodePattern, matchSpecPattern,
      isUpperAlnumCP_runeToUpper tbl a (h a (by simp)),
      isUpperAlnumCP_runeToUpper tbl b (h b (by simp)),
      isUpperAlnumCP_runeToUpper tbl c (h c (by simp)),
      runeToUpper_beq_hyphen tbl d (h d (by simp)),
      isUpperAlnumCP_runeToUpper tbl e (h e (by simp)),
      isUpperAlnumCP_runeToUpper tbl f (h f (by simp)),
      isUpperAlnumCP_runeToUpper tbl g (h g (by simp))]
  case cons.cons.cons.cons.cons.cons.cons.cons => rfl

/-- C4 counterexample: with the Unicode table at the one consulted
non-ASCII point (U+0131 uppercases to I), the program's validator accepts
the seven-rune string of six dotless i and a hyphen, which matches no
instance of the case-insensitive pattern, so the "every other string is
rejected" direction of the claim is false. -/
theorem isValidCodeFormat_accepts_dotlessI :
    isValidCodeFormat caseTableAt131 "ııı-ııı" = true ∧
    specCodeFormat "ııı-ııı" = false := ⟨by decide, by decide⟩

/-- C4 amended: every string matching the case-insensitive pattern
[A-Za-z0-9]\x7b3\x7d-[A-Za-z0-9]\x7b3\x7d is accepted, and on all-ASCII
strings acceptance coincides with that pattern — "abc-123" accepted,
"ABCD-12", "AB-123" and "" rejected — but acceptance is not limited to
it: a string whose runes Unicode-uppercase into the uppercase pattern,
such as "ııı-ııı", is also accepted. -/
theorem isValidCodeFormat_pattern_amended :
    (∀ (tbl : CaseTable) (s : String), specCodeFormat s = true →
      isValidCodeFormat tbl s = true) ∧
    (∀ (tbl : CaseTable) (s : String), (∀ c ∈ codePoints s, c < 128) →
      isValidCodeFormat tbl s = specCodeFormat s) ∧
    (∀ tbl : CaseTable, isValidCodeFormat tbl "abc-123" = true ∧
      isValidCodeFormat tbl "ABCD-12" = false ∧
      isValidCodeFormat tbl "AB-123" = false ∧
      isValidCodeFormat tbl "" = false) ∧
    isValidCodeFormat caseTableAt131 "ııı-ııı" = true := by
  refine ⟨fun tbl s h => ?_, fun tbl s h => ?_,
    fun tbl => ⟨rfl, rfl, rfl, rfl⟩, by decide⟩
  · unfold isValidCodeFormat
    unfold specCodeFormat at h
    rw [matchCodePattern_map_runeToUpper tbl _ (matchSpecPattern_lt _ h), h]
  · exact matchCodePattern_map_runeToUpper tbl _ h

/-- C4 amended witness: the acceptance direction at a concrete pattern
string and the identity table. -/
theorem isValidCodeFormat_pattern_amended_witness :
    isValidCodeFormat (fun n => n) "abc-123" = true :=
  isValidCodeFormat_pattern_amended.1 (fun n => n) "abc-123" (by decide)

/-- C1: with a nil store client the middleware passes every request to the
inner handler, whatever the header and query code values are. -/
theorem withAuth_nil_client_passes :
    ∀ (tbl : CaseTable) (header query : String),
      withAuth tbl none header query = .pass :=
  fun _ _ _ => rfl

/-- The empty string never passes the format check. -/
theorem isValidCodeFormat_empty (tbl : CaseTable) :
    isValidCodeFormat tbl "" = false := rfl

/-- A string passing the format check is nonempty. -/
theorem ne_empty_of_validFormat {tbl : CaseTable} {s : String}
    (h : isValidCodeFormat tbl s = true) : s ≠ "" := by
  intro he
  rw [he, isValidCodeFormat_empty] at h
  exact Bool.false_ne_true h

/-- C5: with a configured store and a well-formed code in the header, a
transport failure of the lookup is answered with 500 "Internal server
error" while an absent record is answered with 401 "Unauthorized: invalid
auth code", and the two responses differ. -/
theorem withAuth_transport_vs_notFound (tbl : CaseTable) (store : Store)
    (hdr query : String) (hfmt : isValidCodeFormat tbl hdr = true) :
    (store (strToUpper tbl hdr) = .err →
      withAuth tbl (some store) hdr query =
        .reject 500 "Internal server error") ∧
    (store (strToUpper tbl hdr) = .ok none →
      withAuth tbl (some store) hdr query =
        .reject 401 "Unauthorized: invalid auth code") ∧
    GateOutcome.reject 500 "Internal server error" ≠
      GateOutcome.reject 401 "Unauthorized: invalid auth code" := by
  have hne : (hdr == "") = false := beq_eq_false_iff_ne.mpr (ne_empty_of_validFormat hfmt)
  refine ⟨fun herr => ?_, fun hnf => ?_, by decide⟩
  · simp only [withAuth, validateCode, hne, Bool.false_eq_true, if_false, hfmt,
      Bool.not_true, herr]
  · simp only [withAuth, validateCode, hne, Bool.false_eq_true, if_false, hfmt,
      Bool.not_true, hnf]

/-- C5 witness at a concrete erroring store, code and the identity table. -/
theorem withAuth_transport_vs_notFound_witness :
    isValidCodeFormat (fun n => n) "ABC-123" = true ∧
    withAuth (fun n => n) (some (fun _ => GetItemResult.err)) "ABC-123" "" =
      .reject 500 "Internal server error" :=
  ⟨by decide,
    (withAuth_transport_vs_notFound (fun n => n) (fun _ => .err) "ABC-123" ""
      (by decide)).1 rfl⟩

/-- A concrete store holding the single record XYZ-789 with name Ada. -/
def exampleStore : Store := fun k =>
  if k == "XYZ-789" then .ok (some ⟨some "Ada"⟩) else .ok none

/-- C6: with a configured store, validateCode looks up the uppercased code
as exact key; a found record yields (true, its name or ""), an absent one
yields (false, ""), and the concrete store mapping XYZ-789 to name Ada
accepts the presented code xyz-789 with name Ada. -/
theorem validateCode_store_lookup (tbl : CaseTable) (store : Store)
    (code : String) (item : Item) :
    (store (strToUpper tbl code) = .ok (some item) →
      validateCode tbl (some store) code = (true, item.name.getD "", false)) ∧
    (store (strToUpper tbl code) = .ok none →
      validateCode tbl (some store) code = (false, "", false)) ∧
    validateCode tbl (some exampleStore) "xyz-789" = (true, "Ada", false) := by
  refine ⟨fun h => ?_, fun h => ?_, rfl⟩ <;> simp only [validateCode, h]

/-- C6 witness: the found-record case applied to the concrete store and
the identity table. -/
theorem validateCode_store_lookup_witness :
    validateCode (fun n => n) (some exampleStore) "xyz-789" =
      (true, "Ada", false) :=
  (validateCode_store_lookup (fun n => n) exampleStore "xyz-789"
    ⟨some "Ada"⟩).1 (by decide)

/-- C9: every POST to /api/auth is answered with the 200 JSON envelope,
and the envelope either reports success with no error text or failure
with a nonempty error text, for every store state and request body. -/
theorem handleAuth_post_always_json (tbl : CaseTable) (client : Option Store)
    (body : Option AuthRequest) :
    ∃ resp, handleAuth tbl client "POST" body = .jsonOK resp ∧
      ((resp.valid = true ∧ resp.error = "") ∨
       (resp.valid = false ∧ resp.error ≠ "")) := by
  unfold handleAuth
  simp only [bne_self_eq_false, Bool.false_eq_true, if_false]
  match body with
  | none => exact ⟨_, rfl, Or.inr ⟨rfl, by decide⟩⟩
  | some req =>
    by_cases hc : (req.code == "") = true
    · simp only [hc, if_true]
      exact ⟨_, rfl, Or.inr ⟨rfl, by decide⟩⟩
    · simp only [Bool.not_eq_true] at hc
      simp only [hc, Bool.false_eq_true, if_false]
      by_cases hf : isValidCodeFormat tbl req.code = true
      · simp only [hf, Bool.not_true, Bool.false_eq_true, if_false]
        rcases hv : validateCode tbl client req.code with ⟨b, name, e⟩
        cases b <;> cases e
        · exact ⟨_, rfl, Or.inr ⟨rfl, by decide⟩⟩
        · exact ⟨_, rfl, Or.inr ⟨rfl, by decide⟩⟩
        · exact ⟨_, rfl, Or.inl ⟨rfl, rfl⟩⟩
        · exact ⟨_, rfl, Or.inr ⟨rfl, by decide⟩⟩
      · simp only [Bool.not_eq_true] at hf
        simp only [hf, Bool.not_false, if_true]
        exact ⟨_, rfl, Or.inr ⟨rfl, by decide⟩⟩

/-- C10 counterexample: in degraded-open mode the code of six dotless i
and a hyphen — which matches no instance of the case-insensitive
XXX-XXX alphanumeric pattern — passes the program's format check (its
Unicode uppercase is III-III) and is accepted as Local User, so the
claim that malformed codes are still rejected in-body is false. -/
theorem handleAuth_degraded_accepts_dotlessI :
    handleAuth caseTableAt131 none "POST" (some ⟨"ııı-ııı"⟩) =
      .jsonOK ⟨true, "Local User", ""⟩ ∧
    specCodeFormat "ııı-ııı" = false := ⟨by decide, by decide⟩

/-- C10 amended: in degraded-open mode (nil store client) the /api/auth
handler still rejects the empty code and every code failing the
program's own format check in the envelope, and accepts every code
passing that check — all case-insensitive alphanumeric XXX-XXX codes,
but also non-ASCII codes whose Unicode uppercase fits the pattern — as
"Local User" with no lookup possible, while the gated-endpoint
middleware passes everything through unconditionally. -/
theorem handleAuth_degradedOpen :
    (∀ tbl : CaseTable, handleAuth tbl none "POST" (some ⟨""⟩) =
      .jsonOK ⟨false, "", "Code is required"⟩) ∧
    (∀ (tbl : CaseTable) (c : String), c ≠ "" →
      isValidCodeFormat tbl c = false →
      handleAuth tbl none "POST" (some ⟨c⟩) =
        .jsonOK ⟨false, "", "Invalid code format. Expected: XXX-XXX"⟩) ∧
    (∀ (tbl : CaseTable) (c : String), isValidCodeFormat tbl c = true →
      handleAuth tbl none "POST" (some ⟨c⟩) =
        .jsonOK ⟨true, "Local User", ""⟩) ∧
    (∀ (tbl : CaseTable) (header query : String),
      withAuth tbl none header query = .pass) := by
  refine ⟨fun tbl => rfl, fun tbl c hc hf => ?_, fun tbl c hf => ?_,
    fun _ _ _ => rfl⟩
  · have hc' : (c == "") = false := beq_eq_false_iff_ne.mpr hc
    simp only [handleAuth, bne_self_eq_false, Bool.false_eq_true, if_false,
      hc', hf, Bool.not_false, if_true]
  · have hc' : (c == "") = false :=
      beq_eq_false_iff_ne.mpr (ne_empty_of_validFormat hf)
    simp only [handleAuth, validateCode, bne_self_eq_false, Bool.false_eq_true,
      if_false, hc', hf, Bool.not_true]

/-- C10 amended witness: a concrete well-formed code is accepted as Local
User under the identity table. -/
theorem handleAuth_degradedOpen_witness :
    handleAuth (fun n => n) none "POST" (some ⟨"ABC-123"⟩) =
      .jsonOK ⟨true, "Local User", ""⟩ :=
  handleAuth_degradedOpen.2.2.1 (fun n => n) "ABC-123" (by decide)

/-- C7: a describe run emitting only a title yields the descriptor with
url "" and ext "mp4"; each field extraction independently falls back to
its default when the key is absent or not a string; and whenever the tool
returns any JSON object the handler answers with the 200 descriptor. -/
theorem handleVideoInfo_defensive_fields :
    handleVideoInfo (fun _ => some ⟨"https", "www.instagram.com"⟩)
        (fun _ => .json [("title", JsonVal.str "t1")]) "POST"
        (some ⟨"https://www.instagram.com/reel/a"⟩) =
      (.jsonOK ⟨"", "t1", "mp4"⟩, true) ∧
    (∀ obj key dflt, obj.lookup key = none →
      extractStringField obj key dflt = dflt) ∧
    (∀ obj key dflt, obj.lookup key = some JsonVal.other →
      extractStringField obj key dflt = dflt) ∧
    (∀ parse tool url gu obj, url ≠ "" → parse url = some gu →
      gu.scheme = "https" → gu.host ≠ "" →
      strContains gu.host "instagram.com" = true →
      tool url = .json obj →
      handleVideoInfo parse tool "POST" (some ⟨url⟩) =
        (.jsonOK ⟨extractStringField obj "url" "",
                  extractStringField obj "title" "video",
                  extractStringField obj "ext" "mp4"⟩, true)) := by
  refine ⟨by decide, fun obj key dflt h => ?_, fun obj key dflt h => ?_,
    fun parse tool url gu obj hne hp hs hh hc ht => ?_⟩
  · simp only [extractStringField, h]
  · simp only [extractStringField, h]
  · have hu : (url == "") = false := beq_eq_false_iff_ne.mpr hne
    have hh' : (gu.host == "") = false := beq_eq_false_iff_ne.mpr hh
    simp only [handleVideoInfo, bne_self_eq_false, Bool.false_eq_true, if_false,
      hu, hp, hs, hh', hc, ht, Bool.or_false, Bool.not_true, Bool.and_false,
      show (("https" : String) == "") = false from rfl,
      show (("https" : String) != "https") = false from rfl]

/-- C7 witness: the general descriptor case applied at an empty object,
every field falling back to its default. -/
theorem handleVideoInfo_defensive_fields_witness :
    handleVideoInfo (fun _ => some ⟨"https", "instagram.com"⟩)
        (fun _ => .json []) "POST" (some ⟨"x"⟩) =
      (.jsonOK ⟨"", "video", "mp4"⟩, true) :=
  handleVideoInfo_defensive_fields.2.2.2 _ _ "x" ⟨"https", "instagram.com"⟩ []
    (by decide) rfl rfl (by decide) (by decide) rfl

/-- C8: a metadata request whose URL fails to parse, has an empty scheme
or host, a non-http(s) scheme, or a host not containing instagram.com is
answered 400 with the matching message, and the subprocess flag is false
in every such case. -/
theorem handleVideoInfo_rejects_bad_url (parse : String → Option GoURL)
    (tool : String → InfoToolOutcome) (req : StreamRequest)
    (hne : req.url ≠ "") :
    (parse req.url = none →
      handleVideoInfo parse tool "POST" (some req) =
        (.plainError 400 "Invalid URL format", false)) ∧
    (∀ gu, parse req.url = some gu → (gu.scheme = "" ∨ gu.host = "") →
      handleVideoInfo parse tool "POST" (some req) =
        (.plainError 400 "Invalid URL format", false)) ∧
    (∀ gu, parse req.url = some gu → gu.scheme ≠ "http" → gu.scheme ≠ "https" →
      gu.scheme ≠ "" → gu.host ≠ "" →
      handleVideoInfo parse tool "POST" (some req) =
        (.plainError 400 "URL must use http or https scheme", false)) ∧
    (∀ gu, parse req.url = some gu → (gu.scheme = "http" ∨ gu.scheme = "https") →
      gu.host ≠ "" → strContains gu.host "instagram.com" = false →
      handleVideoInfo parse tool "POST" (some req) =
        (.plainError 400 "URL must be an Instagram URL", false)) := by
  have hu : (req.url == "") = false := beq_eq_false_iff_ne.mpr hne
  refine ⟨fun hp => ?_, fun gu hp hor => ?_, fun gu hp h1 h2 h3 h4 => ?_,
    fun gu hp hor hh hc => ?_⟩
  · simp only [handleVideoInfo, bne_self_eq_false, Bool.false_eq_true, if_false,
      hu, hp]
  · have : (gu.scheme == "" || gu.host == "") = true := by
      rcases hor with h | h <;> simp [h]
    simp only [handleVideoInfo, bne_self_eq_false, Bool.false_eq_true, if_false,
      hu, hp, this, if_true]
  · have hs : (gu.scheme == "" || gu.host == "") = false := by
      simp [beq_eq_false_iff_ne.mpr h3, beq_eq_false_iff_ne.mpr h4]
    have hbne : (gu.scheme != "http" && gu.scheme != "https") = true := by
      simp [bne_iff_ne, h1, h2]
    simp only [handleVideoInfo, bne_self_eq_false, Bool.false_eq_true, if_false,
      hu, hp, hs, hbne, if_true]
  · have hh' : (gu.host == "") = false := beq_eq_false_iff_ne.mpr hh
    have hs : (gu.scheme == "" || gu.host == "") = false := by
      rcases hor with h | h <;> simp [h, hh']
    have hbne : (gu.scheme != "http" && gu.scheme != "https") = false := by
      rcases hor with h | h <;> simp [h]
    simp only [handleVideoInfo, bne_self_eq_false, Bool.false_eq_true, if_false,
      hu, hp, hs, hbne, hc, Bool.not_false, if_true]

/-- C8 witness: a syntactically fine URL on the wrong domain is rejected
with no subprocess run. -/
theorem handleVideoInfo_rejects_bad_url_witness :
    handleVideoInfo (fun _ => some ⟨"https", "example.com"⟩)
        (fun _ => .execFail) "POST" (some ⟨"https://example.com/video"⟩) =
      (.plainError 400 "URL must be an Instagram URL", false) :=
  (handleVideoInfo_rejects_bad_url (fun _ => some ⟨"https", "example.com"⟩)
      (fun _ => .execFail) ⟨"https://example.com/video"⟩ (by decide)).2.2.2
    ⟨"https", "example.com"⟩ rfl (Or.inr rfl) (by decide) (by decide)

/-- C2: evaluation at the failing input. When the copy loop ends with an
error (a client disconnect) after a successful start, the handler returns
at once: the subprocess was started but cmd.Wait is never reached, so the
subprocess is not reaped, contradicting the claim that it always is. -/
theorem handleStream_copyError_never_waited :
    handleStream "https://www.instagram.com/reel/a"
        ⟨false, false, false, (0, true), false⟩ =
      ⟨.streamed 0, true, false⟩ ∧
    (handleStream "https://www.instagram.com/reel/a"
        ⟨false, false, false, (0, true), false⟩).started = true ∧
    (handleStream "https://www.instagram.com/reel/a"
        ⟨false, false, false, (0, true), false⟩).waited = false :=
  ⟨rfl, rfl, rfl⟩

/-- C3 counterexample: a present but wrong-domain url query parameter is
not answered with any 4xx error; the handler streams and the subprocess
is spawned, refuting the claim at this concrete input. -/
theorem handleStream_wrongDomain_spawns :
    handleStream "https://example.com/video"
        ⟨false, false, false, (5, false), false⟩ =
      ⟨.streamed 5, true, true⟩ ∧
    (handleStream "https://example.com/video"
        ⟨false, false, false, (5, false), false⟩).started = true :=
  ⟨rfl, rfl⟩

/-- C3 amended: the streaming handler validates only the presence of the
url parameter: an empty url is answered 400 with no subprocess, and for
every nonempty url — malformed, wrong scheme or wrong domain alike — no
validation is performed and the subprocess is started whenever the pipe
creations and the start itself succeed. -/
theorem handleStream_only_empty_url_rejected (url : String) (o : StreamOracles) :
    (url = "" → handleStream url o =
      ⟨.plainError 400 "URL parameter is required", false, false⟩) ∧
    (url ≠ "" → o.stdoutPipeFail = false → o.stderrPipeFail = false →
      o.startFail = false → (handleStream url o).started = true) := by
  refine ⟨fun h => by subst h; rfl, fun hne h1 h2 h3 => ?_⟩
  have hu : (url == "") = false := beq_eq_false_iff_ne.mpr hne
  simp only [handleStream, hu, h1, h2, h3, Bool.false_eq_true, if_false]
  cases hc : o.copy.2 <;> simp [hc]

/-- C3 amended witness: with a nonempty wrong-domain url and no boundary
failures the subprocess is started. -/
theorem handleStream_only_empty_url_rejected_witness :
    (handleStream "https://example.com/x"
      ⟨false, false, false, (3, false), false⟩).started = true :=
  (handleStream_only_empty_url_rejected "https://example.com/x"
    ⟨false, false, false, (3, false), false⟩).2 (by decide) rfl rfl rfl

end InstaStream
